import Mathlib

/-!
# go-logging: the logger configuration state of `logging/logging.go`

A shallow embedding of `logging.go` (package `logging`): the `Logger` record, its
constructors and its configuration accessors and mutators.

Conventions of the embedding.

* A method with receiver `logger *Logger` that only reads is a function of the logger
  value; a method that writes returns the updated logger value.
* `logging.go` uses, but does not declare, the type `Level`, the tables `levelNames`
  and `levelValues`, the levels `WARNING` and `NOTSET` and the formats `BasicFormat`
  and `RichFormat`.  The type is the parameter `L`; the rest are the fields of the
  record `Decls`, which every function that uses one of them takes as its first
  argument.  A Go map is taken by its lookup function: `m[k]` is `some v` when `k` is
  a key of `m` and `none` otherwise.
* `io.Writer` values are the parameter `W`, `time.Time` values the parameter `T` and
  `error` values the parameter `E`.  The zero value of a Go type is `default`.
* `time.Now()` and `os.Create` act on an explicit `World`.
* `panic(err)` is the result `Except.error err`.
-/

namespace Logging

/-- The constant `defaultFileName` of `logging.go`. -/
def defaultFileName : String := "logging.log"

/-- The constant `configFileName` of `logging.go`. -/
def configFileName : String := "logging.conf"

/-- State of a `sync.Mutex`: the zero value is an unlocked mutex. -/
structure Mutex where
  locked : Bool
  deriving DecidableEq, Repr

instance : Inhabited Mutex := ⟨⟨false⟩⟩

/-- The struct `Logger`, field by field, in the order of the source. -/
structure Logger (L W T : Type) where
  seqid : Nat
  name : String
  level : L
  format : String
  out : W
  lock : Mutex
  startTime : T
  sync : Bool
  deriving DecidableEq, Repr

/-- The package-level declarations that `logging.go` uses and that are declared in
other files of the package. -/
structure Decls (L : Type) where
  /-- `var levelNames map[Level]string`, by its lookup function. -/
  levelNames : L → Option String
  /-- `var levelValues map[string]Level`, by its lookup function. -/
  levelValues : String → Option L
  WARNING : L
  NOTSET : L
  BasicFormat : String
  RichFormat : String

/-- The part of the process environment that `logging.go` touches.  `ticks` counts the
calls of `time.Now()` made so far and `timeAt k` is the reading that call number `k`
returns; `Stdout` is `os.Stdout`; `Create file` is the outcome of `os.Create(file)`,
the created file being taken as the `io.Writer` it is stored as. -/
structure World (W T E : Type) where
  ticks : Nat
  timeAt : Nat → T
  Stdout : W
  Create : String → Except E W

section Embedding

variable {L W T E : Type}

/-- The call `time.Now()`: the current reading, and the world one reading later. -/
def timeNow (w : World W T E) : T × World W T E :=
  (w.timeAt w.ticks, { w with ticks := w.ticks + 1 })

/-- The call `os.Create(file)`. -/
def osCreate (w : World W T E) (file : String) : Except E W :=
  w.Create file

/-- The expression `new(Logger)`: every field holds the zero value of its type. -/
def newLogger [Inhabited L] [Inhabited W] [Inhabited T] : Logger L W T :=
  { seqid := 0, name := "", level := default, format := "", out := default,
    lock := default, startTime := default, sync := false }

/-- The method `init`: `logger.startTime = time.Now()`. -/
def Logger.init (logger : Logger L W T) (w : World W T E) : Logger L W T × World W T E :=
  let r := timeNow w
  ({ logger with startTime := r.1 }, r.2)

/-- The function `createLogger`, assignment by assignment. -/
def createLogger [Inhabited L] [Inhabited W] [Inhabited T]
    (name : String) (level : L) (format : String) (out : W) (sync : Bool)
    (w : World W T E) : Logger L W T × World W T E :=
  let logger : Logger L W T := newLogger
  let logger := { logger with name := name }
  let logger := { logger with level := level }
  let logger := { logger with format := format }
  let logger := { logger with out := out }
  let logger := { logger with seqid := 0 }
  let logger := { logger with sync := sync }
  logger.init w

/-- The function `FileLogger`: a failing `os.Create` panics with its error. -/
def FileLogger [Inhabited L] [Inhabited W] [Inhabited T]
    (name : String) (level : L) (format : String) (file : String) (sync : Bool)
    (w : World W T E) : Except E (Logger L W T × World W T E) :=
  match osCreate w file with
  | .error err => .error err
  | .ok out => .ok (createLogger name level format out sync w)

/-- The function `SimpleLogger`. -/
def SimpleLogger [Inhabited L] [Inhabited W] [Inhabited T]
    (d : Decls L) (name : String) (w : World W T E) : Logger L W T × World W T E :=
  createLogger name d.WARNING d.BasicFormat w.Stdout true w

/-- The function `BasicLogger`. -/
def BasicLogger [Inhabited L] [Inhabited W] [Inhabited T]
    (d : Decls L) (name : String) (w : World W T E) : Logger L W T × World W T E :=
  SimpleLogger d name w

/-- The function `RichLogger`. -/
def RichLogger [Inhabited L] [Inhabited W] [Inhabited T]
    (d : Decls L) (name : String) (w : World W T E) :
    Except E (Logger L W T × World W T E) :=
  FileLogger name d.NOTSET d.RichFormat defaultFileName true w

/-- The method `Name`. -/
def Logger.Name (logger : Logger L W T) : String :=
  logger.name

/-- The method `SetName`. -/
def Logger.SetName (logger : Logger L W T) (name : String) : Logger L W T :=
  { logger with name := name }

/-- The method `Level`. -/
def Logger.Level (logger : Logger L W T) : L :=
  logger.level

/-- The method `SetLevel`; the conversion `Level(level)` of a `Level` is the identity. -/
def Logger.SetLevel (logger : Logger L W T) (level : L) : Logger L W T :=
  { logger with level := level }

/-- The method `LevelName`: `name, _ := levelNames[logger.level]`, so `name` is the
zero value of `string` when the level is not a key. -/
def Logger.LevelName (d : Decls L) (logger : Logger L W T) : String :=
  match d.levelNames logger.level with
  | some name => name
  | none => ""

/-- The method `SetLevelName`: the level is assigned only when the lookup succeeds. -/
def Logger.SetLevelName (d : Decls L) (logger : Logger L W T) (name : String) :
    Logger L W T :=
  match d.levelValues name with
  | some level => { logger with level := level }
  | none => logger

/-- The method `Format`. -/
def Logger.Format (logger : Logger L W T) : String :=
  logger.format

/-- The method `SetFormat`. -/
def Logger.SetFormat (logger : Logger L W T) (format : String) : Logger L W T :=
  { logger with format := format }

/-- The method `Writer`. -/
def Logger.Writer (logger : Logger L W T) : W :=
  logger.out

/-- The method `SetWriter`. -/
def Logger.SetWriter (logger : Logger L W T) (out : W) : Logger L W T :=
  { logger with out := out }

/-! ### Calls of the mutators as data -/

/-- The fields of `Logger`. -/
inductive Field
  | seqid | name | level | format | out | lock | startTime | sync
  deriving DecidableEq, Repr

/-- One call of a mutator of `logging.go`, with its argument. -/
inductive ConfigOp (L W : Type)
  | SetName (name : String)
  | SetLevel (level : L)
  | SetLevelName (name : String)
  | SetFormat (format : String)
  | SetWriter (out : W)

/-- The field that the body of the mutator assigns. -/
def ConfigOp.field : ConfigOp L W → Field
  | .SetName _ => .name
  | .SetLevel _ => .level
  | .SetLevelName _ => .level
  | .SetFormat _ => .format
  | .SetWriter _ => .out

/-- Performs one mutator call on a logger. -/
def ConfigOp.apply (d : Decls L) (op : ConfigOp L W) (logger : Logger L W T) :
    Logger L W T :=
  match op with
  | .SetName name => logger.SetName name
  | .SetLevel level => logger.SetLevel level
  | .SetLevelName name => logger.SetLevelName d name
  | .SetFormat format => logger.SetFormat format
  | .SetWriter out => logger.SetWriter out

/-- Performs a sequence of mutator calls, first call first. -/
def runOps (d : Decls L) : List (ConfigOp L W) → Logger L W T → Logger L W T
  | [], logger => logger
  | op :: ops, logger => runOps d ops (op.apply d logger)

/-- Two logger values agree on every field other than `f`. -/
def Logger.agreeExcept (f : Field) (a b : Logger L W T) : Prop :=
  (f ≠ .seqid → a.seqid = b.seqid) ∧ (f ≠ .name → a.name = b.name) ∧
  (f ≠ .level → a.level = b.level) ∧ (f ≠ .format → a.format = b.format) ∧
  (f ≠ .out → a.out = b.out) ∧ (f ≠ .lock → a.lock = b.lock) ∧
  (f ≠ .startTime → a.startTime = b.startTime) ∧ (f ≠ .sync → a.sync = b.sync)

instance [DecidableEq L] [DecidableEq W] [DecidableEq T] (f : Field)
    (a b : Logger L W T) : Decidable (Logger.agreeExcept f a b) := by
  unfold Logger.agreeExcept
  infer_instance

/-! ### Mutex discipline of the method bodies -/

/-- What one statement of a method body does to the logger: an operation on
`logger.lock`, or an access to a field. -/
inductive Event
  | lockAcquire
  | lockRelease
  | read (f : Field)
  | write (f : Field)
  deriving DecidableEq, Repr

/-- The accessors and mutators of `logging.go`. -/
inductive Method
  | Name | SetName | Level | SetLevel | LevelName | SetLevelName
  | Format | SetFormat | Writer | SetWriter
  deriving DecidableEq, Repr

/-- The events of one call of a method, in program order.  `ok` is the outcome of the
lookup `levelValues[name]`, which decides whether `SetLevelName` assigns; the other
bodies are a single `return logger.f` or `logger.f = v`. -/
def Method.events (ok : Bool) : Method → List Event
  | .Name => [.read .name]
  | .SetName => [.write .name]
  | .Level => [.read .level]
  | .SetLevel => [.write .level]
  | .LevelName => [.read .level]
  | .SetLevelName => if ok then [.write .level] else []
  | .Format => [.read .format]
  | .SetFormat => [.write .format]
  | .Writer => [.read .out]
  | .SetWriter => [.write .out]

/-- The methods that read or write `level`, `format` or the sink. -/
def configMethods : List Method :=
  [.Level, .SetLevel, .LevelName, .SetLevelName, .Format, .SetFormat, .Writer, .SetWriter]

/-- Follows the events of a call; `held` tells whether the call holds the mutex at
that point.  The result is `true` when every field access happens while the call
holds the mutex. -/
def guarded : Bool → List Event → Bool
  | _, [] => true
  | _, .lockAcquire :: es => guarded true es
  | _, .lockRelease :: es => guarded false es
  | held, .read _ :: es => held && guarded held es
  | held, .write _ :: es => held && guarded held es

end Embedding

/-! ### Concrete instances -/

/-- An instance of the declarations in which two names map to one level.  It satisfies
the round trip from a level to its name and back. -/
def aliasDecls : Decls Int where
  levelNames := fun l =>
    if l = 40 then some "ERROR" else if l = 30 then some "WARNING" else none
  levelValues := fun s =>
    if s = "ERROR" then some 40
    else if s = "WARNING" then some 30
    else if s = "WARN" then some 30
    else none
  WARNING := 30
  NOTSET := 0
  BasicFormat := "%(message)"
  RichFormat := "%(seqid) %(message)"

/-- A world in which creating a file with an empty name fails. -/
def sampleWorld : World String Nat String where
  ticks := 7
  timeAt := fun k => 1000 + k
  Stdout := "stdout"
  Create := fun file =>
    if file = "" then .error "open : no such file or directory" else .ok file

/-- A world in which no file can be created. -/
def readOnlyWorld : World String Nat String where
  ticks := 3
  timeAt := fun k => 2000 + k
  Stdout := "stdout"
  Create := fun _ => .error "read-only file system"

/-- A logger value. -/
def sampleLogger : Logger Int String Nat :=
  { seqid := 5, name := "main", level := 10, format := "%(message)", out := "stdout",
    lock := ⟨false⟩, startTime := 1000, sync := true }

/-! ## Theorems -/

section Lemmas

variable {L W T E : Type}

/-- A mutator call leaves `seqid`, `startTime`, `sync` and `lock` as they were. -/
theorem ConfigOp.apply_fixed (d : Decls L) (op : ConfigOp L W) (lg : Logger L W T) :
    (op.apply d lg).seqid = lg.seqid ∧ (op.apply d lg).startTime = lg.startTime ∧
    (op.apply d lg).sync = lg.sync ∧ (op.apply d lg).lock = lg.lock := by
  cases op with
  | SetLevelName n =>
    simp only [ConfigOp.apply, Logger.SetLevelName]
    cases d.levelValues n <;> simp
  | _ => simp [ConfigOp.apply, Logger.SetName, Logger.SetLevel, Logger.SetFormat,
      Logger.SetWriter]

/-- A sequence of mutator calls leaves `seqid`, `startTime`, `sync` and `lock` as they
were. -/
theorem runOps_fixed (d : Decls L) (ops : List (ConfigOp L W)) (lg : Logger L W T) :
    (runOps d ops lg).seqid = lg.seqid ∧ (runOps d ops lg).startTime = lg.startTime ∧
    (runOps d ops lg).sync = lg.sync ∧ (runOps d ops lg).lock = lg.lock := by
  induction ops generalizing lg with
  | nil => simp [runOps]
  | cons op ops ih =>
    obtain ⟨h1, h2, h3, h4⟩ := ih (op.apply d lg)
    obtain ⟨k1, k2, k3, k4⟩ := ConfigOp.apply_fixed d op lg
    simp only [runOps]
    exact ⟨h1.trans k1, h2.trans k2, h3.trans k3, h4.trans k4⟩

/-- What `LevelName` returns, by the lookup of the current level. -/
theorem Logger.LevelName_eq (d : Decls L) (lg : Logger L W T) :
    lg.LevelName d = (d.levelNames lg.level).getD "" := by
  unfold Logger.LevelName
  cases d.levelNames lg.level <;> rfl

/-- The sample table satisfies the round trip from a level to its name and back: the
name that `levelNames` holds for a level is mapped by `levelValues` to that level. -/
theorem aliasDecls_roundTrip (l : Int) (s : String) (h : aliasDecls.levelNames l = some s) :
    aliasDecls.levelValues s = some l := by
  simp only [aliasDecls] at h ⊢
  split_ifs at h with h1 h2
  · obtain rfl : "ERROR" = s := by simpa using h
    simp [h1]
  · obtain rfl : "WARNING" = s := by simpa using h
    simp [h2]

end Lemmas

section Claims

variable {L W T E : Type}

/-- C1: for every logger and every string `n` that is not a key of `levelValues`,
`SetLevelName(n)` returns the logger unchanged: `Level()`, name, format, writer, seqid,
startTime and sync (and the mutex) are what they were. -/
theorem SetLevelName_unknown_noop (d : Decls L) (lg : Logger L W T) (n : String)
    (h : d.levelValues n = none) :
    lg.SetLevelName d n = lg ∧
    (lg.SetLevelName d n).Level = lg.Level ∧
    (lg.SetLevelName d n).name = lg.name ∧
    (lg.SetLevelName d n).format = lg.format ∧
    (lg.SetLevelName d n).out = lg.out ∧
    (lg.SetLevelName d n).seqid = lg.seqid ∧
    (lg.SetLevelName d n).startTime = lg.startTime ∧
    (lg.SetLevelName d n).sync = lg.sync := by
  have e : lg.SetLevelName d n = lg := by
    unfold Logger.SetLevelName
    rw [h]
  simp [e]

/-- Instance of C1: the name `bogus` is no key of the sample table, and the sample
logger keeps its level 10. -/
theorem SetLevelName_unknown_noop_witness :
    aliasDecls.levelValues "bogus" = none ∧
    (sampleLogger.SetLevelName aliasDecls "bogus").Level = 10 :=
  ⟨by decide, (SetLevelName_unknown_noop aliasDecls sampleLogger "bogus" (by decide)).2.1⟩

/-- C2 as stated fails: in a table where `WARN` and `WARNING` both map to level 30,
whose name is `WARNING`, the name `WARN` is recognized, `SetLevelName` stores level 30,
and `LevelName` then returns `WARNING`, not `WARN`. -/
theorem SetLevelName_alias_counterexample :
    aliasDecls.levelValues "WARN" = some 30 ∧
    (sampleLogger.SetLevelName aliasDecls "WARN").Level = 30 ∧
    (sampleLogger.SetLevelName aliasDecls "WARN").LevelName aliasDecls = "WARNING" ∧
    (sampleLogger.SetLevelName aliasDecls "WARN").LevelName aliasDecls ≠ "WARN" := by
  decide

/-- C2, amended: for every logger and every recognized name `n`, mapped to level `l`,
after `SetLevelName(n)` the call `Level()` returns `l` and `LevelName()` returns the
name the table `levelNames` holds for `l` (the empty string when it holds none); this
is `n` itself exactly when `levelNames` maps `l` back to `n`, or holds no name for `l`
and `n` is empty. -/
theorem SetLevelName_recognized (d : Decls L) (lg : Logger L W T) (n : String) (l : L)
    (h : d.levelValues n = some l) :
    (lg.SetLevelName d n).Level = l ∧
    (lg.SetLevelName d n).LevelName d = (d.levelNames l).getD "" ∧
    ((lg.SetLevelName d n).LevelName d = n ↔
      (d.levelNames l = some n ∨ (d.levelNames l = none ∧ n = ""))) := by
  have e : lg.SetLevelName d n = { lg with level := l } := by
    unfold Logger.SetLevelName
    rw [h]
  rw [Logger.LevelName_eq, e]
  refine ⟨rfl, rfl, ?_⟩
  cases hl : d.levelNames l with
  | none => simp [eq_comm]
  | some s => simp

/-- Instance of C2, amended: `ERROR` maps to level 40, whose name is `ERROR`, so after
`SetLevelName("ERROR")` the level is 40 and its name is `ERROR`. -/
theorem SetLevelName_recognized_witness :
    aliasDecls.levelValues "ERROR" = some 40 ∧
    (sampleLogger.SetLevelName aliasDecls "ERROR").Level = 40 ∧
    (sampleLogger.SetLevelName aliasDecls "ERROR").LevelName aliasDecls = "ERROR" :=
  have h := SetLevelName_recognized aliasDecls sampleLogger "ERROR" 40 (by decide)
  ⟨by decide, h.1, h.2.2.mpr (Or.inl (by decide))⟩

/-- C3: each getter returns what the matching setter last stored, for every logger and
every value, with no validation of the level. -/
theorem getter_after_setter (lg : Logger L W T) (name name0 : String) (level level0 : L)
    (format format0 : String) (out out0 : W) :
    (lg.SetName name).Name = name ∧
    (lg.SetLevel level).Level = level ∧
    (lg.SetFormat format).Format = format ∧
    (lg.SetWriter out).Writer = out ∧
    ((lg.SetName name0).SetName name).Name = name ∧
    ((lg.SetLevel level0).SetLevel level).Level = level ∧
    ((lg.SetFormat format0).SetFormat format).Format = format ∧
    ((lg.SetWriter out0).SetWriter out).Writer = out :=
  ⟨rfl, rfl, rfl, rfl, rfl, rfl, rfl, rfl⟩

/-- C8: `LevelName` is a total function: for every logger it returns the name the table
holds for the current level, and the empty string when the table holds none; so it
does after `SetLevel` has stored any value at all. -/
theorem LevelName_total (d : Decls L) (lg : Logger L W T) (v : L) :
    lg.LevelName d = (d.levelNames lg.Level).getD "" ∧
    (lg.SetLevel v).LevelName d = (d.levelNames v).getD "" ∧
    (∀ s, d.levelNames v = some s → (lg.SetLevel v).LevelName d = s) ∧
    (d.levelNames v = none → (lg.SetLevel v).LevelName d = "") := by
  refine ⟨Logger.LevelName_eq d lg, Logger.LevelName_eq d _, ?_, ?_⟩
  · intro s hs
    rw [Logger.LevelName_eq]
    simp [Logger.SetLevel, hs]
  · intro hn
    rw [Logger.LevelName_eq]
    simp [Logger.SetLevel, hn]

/-- Instance of C8: level 99 has no name in the sample table and `LevelName` returns the
empty string; level 40 has the name `ERROR`. -/
theorem LevelName_total_witness :
    aliasDecls.levelNames 99 = none ∧
    (sampleLogger.SetLevel 99).LevelName aliasDecls = "" ∧
    (sampleLogger.SetLevel 40).LevelName aliasDecls = "ERROR" :=
  ⟨by decide, (LevelName_total aliasDecls sampleLogger 99).2.2.2 (by decide),
    (LevelName_total aliasDecls sampleLogger 40).2.2.1 "ERROR" (by decide)⟩

/-- C4: no configuration operation changes the sequence counter or the start time:
each of the five mutators leaves `seqid` and `startTime` as they were (the getters
return a value and no logger), hence so does every sequence of mutator calls; and a
logger made by `createLogger` still has counter 0 and the start time read at its
construction after any such sequence. -/
theorem config_preserves_seqid_startTime [Inhabited L] [Inhabited W] [Inhabited T]
    (d : Decls L) (lg : Logger L W T) (ops : List (ConfigOp L W))
    (name : String) (level : L) (n : String) (format : String) (out : W) (sync : Bool)
    (w : World W T E) :
    ((lg.SetName name).seqid = lg.seqid ∧ (lg.SetName name).startTime = lg.startTime) ∧
    ((lg.SetLevel level).seqid = lg.seqid ∧
      (lg.SetLevel level).startTime = lg.startTime) ∧
    ((lg.SetLevelName d n).seqid = lg.seqid ∧
      (lg.SetLevelName d n).startTime = lg.startTime) ∧
    ((lg.SetFormat format).seqid = lg.seqid ∧
      (lg.SetFormat format).startTime = lg.startTime) ∧
    ((lg.SetWriter out).seqid = lg.seqid ∧ (lg.SetWriter out).startTime = lg.startTime) ∧
    ((runOps d ops lg).seqid = lg.seqid ∧ (runOps d ops lg).startTime = lg.startTime) ∧
    ((runOps d ops (createLogger name level format out sync w).1).seqid = 0 ∧
      (runOps d ops (createLogger name level format out sync w).1).startTime =
        w.timeAt w.ticks) := by
  have hn := ConfigOp.apply_fixed d (ConfigOp.SetLevelName n : ConfigOp L W) lg
  have hr := runOps_fixed d ops lg
  have hc := runOps_fixed d ops (createLogger name level format out sync w).1
  refine ⟨⟨rfl, rfl⟩, ⟨rfl, rfl⟩, ⟨hn.1, hn.2.1⟩, ⟨rfl, rfl⟩, ⟨rfl, rfl⟩,
    ⟨hr.1, hr.2.1⟩, ⟨?_, ?_⟩⟩
  · rw [hc.1]; rfl
  · rw [hc.2.1]; rfl

/-- C5: for every name, level, format, writer and sync flag, `createLogger` returns a
logger with sequence counter 0 whose `Name()`, `Level()`, `Format()` and `Writer()` are
the given values, whose sync flag is the given one, whose mutex is unlocked, and whose
start time is the one reading of the clock taken during the construction. -/
theorem createLogger_fields [Inhabited L] [Inhabited W] [Inhabited T]
    (name : String) (level : L) (format : String) (out : W) (sync : Bool)
    (w : World W T E) :
    (createLogger name level format out sync w).1.seqid = 0 ∧
    (createLogger name level format out sync w).1.Name = name ∧
    (createLogger name level format out sync w).1.Level = level ∧
    (createLogger name level format out sync w).1.Format = format ∧
    (createLogger name level format out sync w).1.Writer = out ∧
    (createLogger name level format out sync w).1.sync = sync ∧
    (createLogger name level format out sync w).1.lock.locked = false ∧
    (createLogger name level format out sync w).1.startTime = w.timeAt w.ticks ∧
    (createLogger name level format out sync w).2.ticks = w.ticks + 1 :=
  ⟨rfl, rfl, rfl, rfl, rfl, rfl, rfl, rfl, rfl⟩

/-- C6: `FileLogger` returns a logger exactly when `os.Create(file)` succeeds: when it
fails with `err`, `FileLogger` panics with `err` and returns nothing; when it succeeds
with `out`, the result is `createLogger(name, level, format, out, sync)`. -/
theorem FileLogger_iff_created [Inhabited L] [Inhabited W] [Inhabited T]
    (name : String) (level : L) (format : String) (file : String) (sync : Bool)
    (w : World W T E) :
    ((∃ r : Logger L W T × World W T E,
        FileLogger name level format file sync w = Except.ok r) ↔
      ∃ out, osCreate w file = Except.ok out) ∧
    (∀ err, osCreate w file = Except.error err →
      (FileLogger name level format file sync w :
        Except E (Logger L W T × World W T E)) = Except.error err) ∧
    (∀ out, osCreate w file = Except.ok out →
      (FileLogger name level format file sync w :
        Except E (Logger L W T × World W T E)) =
        Except.ok (createLogger name level format out sync w)) := by
  unfold FileLogger
  cases h : osCreate w file with
  | error err => simp
  | ok out => simp

/-- Instance of C6: in the sample world creating the file with the empty name fails and
`FileLogger` panics with that error; creating `app.log` succeeds and `FileLogger`
returns what `createLogger` returns for the created file. -/
theorem FileLogger_iff_created_witness :
    osCreate sampleWorld "" = Except.error "open : no such file or directory" ∧
    (FileLogger "main" (10 : Int) "%(message)" "" true sampleWorld :
      Except String (Logger Int String Nat × World String Nat String)) =
      Except.error "open : no such file or directory" ∧
    osCreate sampleWorld "app.log" = Except.ok "app.log" ∧
    (FileLogger "main" (10 : Int) "%(message)" "app.log" true sampleWorld :
      Except String (Logger Int String Nat × World String Nat String)) =
      Except.ok (createLogger "main" 10 "%(message)" "app.log" true sampleWorld) :=
  ⟨by simp [osCreate, sampleWorld],
    (FileLogger_iff_created "main" (10 : Int) "%(message)" "" true sampleWorld).2.1 _
      (by simp [osCreate, sampleWorld]),
    by simp [osCreate, sampleWorld],
    (FileLogger_iff_created "main" (10 : Int) "%(message)" "app.log" true sampleWorld).2.2 _
      (by simp [osCreate, sampleWorld])⟩

/-- C7: the presets pick the defaults of the source.  `SimpleLogger(name)` is
`createLogger(name, WARNING, BasicFormat, os.Stdout, true)`, so it is named `name`, at
level `WARNING`, with format `BasicFormat`, writing to standard output, with sync on
and counter 0; `BasicLogger(name)` is `SimpleLogger(name)`.  `RichLogger(name)` is
`FileLogger(name, NOTSET, RichFormat, "logging.log", true)`: it returns a logger
exactly when `os.Create("logging.log")` succeeds; when that call gives the file `out`,
the logger returned is named `name`, at level `NOTSET`, with format `RichFormat`,
writing to `out`, with sync on, counter 0, an unlocked mutex and the start time read
during the construction; when the call fails with `err`, `RichLogger` panics with
`err`. -/
theorem presets_defaults [Inhabited L] [Inhabited W] [Inhabited T]
    (d : Decls L) (name : String) (w : World W T E) :
    (SimpleLogger d name w : Logger L W T × World W T E) =
      createLogger name d.WARNING d.BasicFormat w.Stdout true w ∧
    (SimpleLogger d name w : Logger L W T × World W T E).1.Name = name ∧
    (SimpleLogger d name w : Logger L W T × World W T E).1.Level = d.WARNING ∧
    (SimpleLogger d name w : Logger L W T × World W T E).1.Format = d.BasicFormat ∧
    (SimpleLogger d name w : Logger L W T × World W T E).1.Writer = w.Stdout ∧
    (SimpleLogger d name w : Logger L W T × World W T E).1.sync = true ∧
    (SimpleLogger d name w : Logger L W T × World W T E).1.seqid = 0 ∧
    (BasicLogger d name w : Logger L W T × World W T E) = SimpleLogger d name w ∧
    (RichLogger d name w : Except E (Logger L W T × World W T E)) =
      FileLogger name d.NOTSET d.RichFormat "logging.log" true w ∧
    (BasicLogger d name w : Logger L W T × World W T E).1.Name = name ∧
    (BasicLogger d name w : Logger L W T × World W T E).1.Level = d.WARNING ∧
    (BasicLogger d name w : Logger L W T × World W T E).1.Format = d.BasicFormat ∧
    (BasicLogger d name w : Logger L W T × World W T E).1.Writer = w.Stdout ∧
    (BasicLogger d name w : Logger L W T × World W T E).1.sync = true ∧
    (BasicLogger d name w : Logger L W T × World W T E).1.seqid = 0 ∧
    ((∃ r : Logger L W T × World W T E, RichLogger d name w = Except.ok r) ↔
      ∃ out, osCreate w "logging.log" = Except.ok out) ∧
    (∀ out, osCreate w "logging.log" = Except.ok out →
      ∃ r : Logger L W T × World W T E, RichLogger d name w = Except.ok r ∧
        r.1.Name = name ∧ r.1.Level = d.NOTSET ∧ r.1.Format = d.RichFormat ∧
        r.1.Writer = out ∧ r.1.sync = true ∧ r.1.seqid = 0 ∧
        r.1.lock.locked = false ∧ r.1.startTime = w.timeAt w.ticks ∧
        r.2.ticks = w.ticks + 1) ∧
    (∀ err, osCreate w "logging.log" = Except.error err →
      (RichLogger d name w : Except E (Logger L W T × World W T E)) =
        Except.error err) := by
  refine ⟨rfl, rfl, rfl, rfl, rfl, rfl, rfl, rfl, rfl, rfl, rfl, rfl, rfl, rfl, rfl,
    ?_, ?_, ?_⟩
  · unfold RichLogger FileLogger defaultFileName
    cases h : osCreate w "logging.log" with
    | error err => simp
    | ok out => simp
  · intro out h
    refine ⟨createLogger name d.NOTSET d.RichFormat out true w, ?_,
      rfl, rfl, rfl, rfl, rfl, rfl, rfl, rfl, rfl⟩
    unfold RichLogger FileLogger defaultFileName
    rw [h]
  · intro err h
    unfold RichLogger FileLogger defaultFileName
    rw [h]

/-- Instance of C7: in the sample world `logging.log` can be created, and `RichLogger`
returns a logger named `main` at level 0 (the `NOTSET` of the sample declarations)
that writes to the created file; in the world where no file can be created it panics
with the error of `os.Create`. -/
theorem presets_defaults_witness :
    osCreate sampleWorld "logging.log" = Except.ok "logging.log" ∧
    (∃ r : Logger Int String Nat × World String Nat String,
      RichLogger aliasDecls "main" sampleWorld = Except.ok r ∧
        r.1.Name = "main" ∧ r.1.Level = 0 ∧ r.1.Format = "%(seqid) %(message)" ∧
        r.1.Writer = "logging.log" ∧ r.1.sync = true ∧ r.1.seqid = 0 ∧
        r.1.lock.locked = false ∧ r.1.startTime = 1007 ∧ r.2.ticks = 8) ∧
    osCreate readOnlyWorld "logging.log" = Except.error "read-only file system" ∧
    (RichLogger aliasDecls "main" readOnlyWorld :
      Except String (Logger Int String Nat × World String Nat String)) =
      Except.error "read-only file system" :=
  ⟨by simp [osCreate, sampleWorld],
    (presets_defaults aliasDecls "main" sampleWorld).2.2.2.2.2.2.2.2.2.2.2.2.2.2.2.2.1
      "logging.log" (by simp [osCreate, sampleWorld]),
    rfl,
    (presets_defaults aliasDecls "main" readOnlyWorld).2.2.2.2.2.2.2.2.2.2.2.2.2.2.2.2.2
      "read-only file system" rfl⟩

/-- C9 as stated fails: `Level` is one of the configuration methods, its body is the
single read of `level`, and that read happens without the mutex being held by the
call; likewise the write of `SetLevel`. -/
theorem accessors_unguarded_counterexample :
    Method.Level ∈ configMethods ∧
    Method.Level.events true = [Event.read Field.level] ∧
    guarded false (Method.Level.events true) = false ∧
    Method.SetLevel ∈ configMethods ∧
    guarded false (Method.SetLevel.events true) = false := by
  decide

/-- C9, amended: no accessor or mutator of `logging.go` locks or unlocks the mutex of
the logger: a call is at most one plain read or write of its field, made without
taking the mutex (so it is unguarded whenever it accesses a field at all), and every
mutator leaves the state of the mutex as it found it. -/
theorem accessors_take_no_lock (d : Decls L) (lg : Logger L W T) (op : ConfigOp L W)
    (m : Method) (ok : Bool) :
    Event.lockAcquire ∉ m.events ok ∧ Event.lockRelease ∉ m.events ok ∧
    (m.events ok).length ≤ 1 ∧
    guarded false (m.events ok) = (m.events ok).isEmpty ∧
    (op.apply d lg).lock = lg.lock := by
  refine ⟨?_, ?_, ?_, ?_, (ConfigOp.apply_fixed d op lg).2.2.2⟩ <;>
    cases m <;> cases ok <;> decide

/-- C10: each mutator writes only its own field: `SetName` changes at most `name`,
`SetLevel` and `SetLevelName` at most `level`, `SetFormat` at most `format` and
`SetWriter` at most the writer; no sequence of mutator calls changes the sync flag; and
two mutator calls that assign different fields commute. -/
theorem mutators_frame_commute (d : Decls L) :
    (∀ (lg : Logger L W T) (name : String), Logger.agreeExcept .name lg (lg.SetName name)) ∧
    (∀ (lg : Logger L W T) (level : L),
      Logger.agreeExcept .level lg (lg.SetLevel level)) ∧
    (∀ (lg : Logger L W T) (n : String),
      Logger.agreeExcept .level lg (lg.SetLevelName d n)) ∧
    (∀ (lg : Logger L W T) (format : String),
      Logger.agreeExcept .format lg (lg.SetFormat format)) ∧
    (∀ (lg : Logger L W T) (out : W), Logger.agreeExcept .out lg (lg.SetWriter out)) ∧
    (∀ (ops : List (ConfigOp L W)) (lg : Logger L W T),
      (runOps d ops lg).sync = lg.sync) ∧
    (∀ (a b : ConfigOp L W) (lg : Logger L W T), a.field ≠ b.field →
      a.apply d (b.apply d lg) = b.apply d (a.apply d lg)) := by
  refine ⟨?_, ?_, ?_, ?_, ?_, ?_, ?_⟩
  · intro lg name
    simp [Logger.agreeExcept, Logger.SetName]
  · intro lg level
    simp [Logger.agreeExcept, Logger.SetLevel]
  · intro lg n
    unfold Logger.SetLevelName
    cases d.levelValues n <;> simp [Logger.agreeExcept]
  · intro lg format
    simp [Logger.agreeExcept, Logger.SetFormat]
  · intro lg out
    simp [Logger.agreeExcept, Logger.SetWriter]
  · intro ops lg
    exact (runOps_fixed d ops lg).2.2.1
  · intro a b lg h
    cases a <;> cases b <;> simp only [ConfigOp.field, ne_eq, not_true_eq_false,
      reduceCtorEq, not_false_eq_true] at h <;>
      simp only [ConfigOp.apply, Logger.SetName, Logger.SetLevel, Logger.SetFormat,
        Logger.SetWriter, Logger.SetLevelName] <;>
      first
        | rfl
        | (rename_i n _; cases d.levelValues n <;> rfl)
        | (rename_i n; cases d.levelValues n <;> rfl)

/-- Instance of C10: on the sample logger, setting the format and then the level by
name gives the same logger as setting the level by name and then the format. -/
theorem mutators_frame_commute_witness :
    (ConfigOp.SetLevelName "ERROR" : ConfigOp Int String).field ≠
      (ConfigOp.SetFormat "%(name)" : ConfigOp Int String).field ∧
    (sampleLogger.SetFormat "%(name)").SetLevelName aliasDecls "ERROR" =
      (sampleLogger.SetLevelName aliasDecls "ERROR").SetFormat "%(name)" :=
  ⟨by decide,
    (mutators_frame_commute aliasDecls).2.2.2.2.2.2 (ConfigOp.SetLevelName "ERROR")
      (ConfigOp.SetFormat "%(name)") sampleLogger (by decide)⟩

end Claims

end Logging
